import Mathlib

/-!
Shallow embedding of the convert-to-cad edge function
(supabase/functions/convert-to-cad/index.ts).

The handler is modelled as a pure function from a `World` (the external
collaborators: the job store, the two spec tables, the CAD service, the
storage bucket's public-URL resolver, and the clock) and an incoming
`Request` to an `HttpResponse` together with the ordered trace of external
effects (database reads and writes, the outbound HTTP call, storage uploads
and public-URL resolutions).  Database update effects are interpreted onto
the job store by `finalJobs`; upload effects are interpreted onto a storage
state by `finalStorage`.

Notes on the translation:
* JavaScript truthiness checks on strings (the source checks
  `if (!svgUrl)` and `if (conversionId)`) are modelled by `truthy`:
  a nullable string is truthy exactly when present and non-empty.
* The supabase client does not throw on database or storage errors; it
  returns result objects whose `error` field the source either checks
  (`.single()` results) or discards (updates, uploads).  Accordingly the
  job lookup and the metal-spec lookup return `Option`, updates and
  uploads are plain effects, and only `fetch` / `resp.json()` can throw.
* `String(err)` on a JavaScript `Error` object with message `m` yields
  the string `"Error: " ++ m`; other thrown values are stringified by the
  environment and carried verbatim.
* `Number(x)` coercion is modelled by `jsNumber`, with `NaN` as `none`:
  numbers coerce to themselves and strings are parsed as optionally
  signed decimal numerals (empty / all-whitespace strings coerce to 0).
-/

/-- A JavaScript primitive value as stored in a spec row column that the
source passes through `Number(...)`: either already a number or a string. -/
inductive JsPrim where
  | str (s : String)
  | num (q : Rat)
deriving DecidableEq

/-- Value of a nonempty digit string as a rational. -/
def decDigitsVal (s : String) : Rat :=
  s.foldl (fun a c => a * 10 + ((c.toNat : Rat) - 48)) 0

/-- Parse an unsigned decimal numeral (digits, optionally with a fractional
part); `none` models `NaN`. -/
def parseDecimal (s : String) : Option Rat :=
  match s.splitOn "." with
  | [i] =>
      if i ≠ "" ∧ i.all Char.isDigit then some (decDigitsVal i) else none
  | [i, f] =>
      if (i ≠ "" ∨ f ≠ "") ∧ i.all Char.isDigit ∧ f.all Char.isDigit then
        some (decDigitsVal i + decDigitsVal f / (10 : Rat) ^ f.length)
      else none
  | _ => none

/-- Model of the JavaScript `Number()` coercion applied by the source to
`mm_size`, `dia_wt` and `gold_weight` before building the CAD payload.
`NaN` is modelled as `none`. -/
def jsNumber : JsPrim → Option Rat
  | JsPrim.num q => some q
  | JsPrim.str s =>
      let t := s.trim
      if t = "" then some 0
      else if t.startsWith "-" then (parseDecimal (t.drop 1)).map Neg.neg
      else if t.startsWith "+" then parseDecimal (t.drop 1)
      else parseDecimal t

/-- JavaScript string truthiness on a nullable string: present and
non-empty. -/
def truthy : Option String → Option String
  | none => none
  | some s => if s = "" then none else some s

/-- A row of the cad_conversions table. -/
structure ConversionJob where
  id : String
  status : String
  current_step : Int
  vectorized_svg_url : Option String
  cad_file_url : Option String
  stl_file_url : Option String
  obj_file_url : Option String
  completed_at : Option String
  error_message : Option String
deriving DecidableEq

/-- A row of the gemstone_specs table (the columns the source reads). -/
structure GemstoneSpec where
  conversion_id : String
  shape : String
  mm_size : JsPrim
  dia_wt : JsPrim
  quantity : Int
  setting_type : String
deriving DecidableEq

/-- A row of the metal_specs table (the columns the source reads). -/
structure MetalSpec where
  conversion_id : String
  color : String
  karat : Int
  gold_weight : JsPrim
  tone : String
deriving DecidableEq

/-- One gemstone entry of the outbound CAD payload. -/
structure GemPayload where
  shape : String
  size_mm : Option Rat
  dia_wt : Option Rat
  quantity : Int
  setting_type : String
deriving DecidableEq

/-- The metal_specs object of the outbound CAD payload. -/
structure MetalPayload where
  type : String
  karat : Int
  weight_grams : Option Rat
  tone : String
deriving DecidableEq

/-- The JSON payload POSTed to the CAD service. -/
structure CadRequest where
  svg_url : String
  design_id : String
  gemstone_specs : List GemPayload
  metal_specs : MetalPayload
deriving DecidableEq

/-- The three file payloads of a successful CAD-service JSON response. -/
structure CadFiles where
  step_file : String
  stl_file : String
  obj_file : String
deriving DecidableEq

/-- An HTTP response from the CAD service: status-ok flag, body text, and
the result of parsing the body as JSON (`Except.error` models
`resp.json()` throwing, carrying the stringified exception). -/
structure CadHttpResponse where
  ok : Bool
  bodyText : String
  json : Except String CadFiles

/-- Outcome of the `fetch` to the CAD service: either the promise rejects
(network error or the 300 s `AbortSignal.timeout` firing), carrying the
stringified exception, or an HTTP response arrives. -/
inductive CadResult where
  | transportError (s : String)
  | response (r : CadHttpResponse)

/-- A value thrown inside the protected region. -/
inductive JsError where
  | errorObj (msg : String)
  | thrown (s : String)
deriving DecidableEq

/-- JavaScript `String(err)`: an `Error` object stringifies with the
`Error: ` prefix, other thrown values are carried verbatim. -/
def stringOfError : JsError → String
  | JsError.errorObj m => "Error: " ++ m
  | JsError.thrown s => s

/-- The column assignments of one `.update(...)` call on cad_conversions;
`none` means the column is absent from the update object. -/
structure JobUpdate where
  status : String
  current_step : Int
  cad_file_url : Option String := none
  stl_file_url : Option String := none
  obj_file_url : Option String := none
  completed_at : Option String := none
  error_message : Option String := none
deriving DecidableEq

/-- The step-3 update: status generating_cad, current_step 3. -/
def generatingUpdate : JobUpdate :=
  { status := "generating_cad", current_step := 3 }

/-- The catch-block update: status failed, current_step 0, error_message
the stringified error. -/
def failedUpdate (err : JsError) : JobUpdate :=
  { status := "failed", current_step := 0,
    error_message := some (stringOfError err) }

/-- The finalize update: status completed, current_step 4, the three file
URLs and the completion timestamp. -/
def completedUpdate (stepUrl stlUrl objUrl now : String) : JobUpdate :=
  { status := "completed", current_step := 4,
    cad_file_url := some stepUrl, stl_file_url := some stlUrl,
    obj_file_url := some objUrl, completed_at := some now }

/-- An external effect of one handler invocation, in program order. -/
inductive Effect where
  | dbSelectJob (id : String)
  | dbSelectGems (conversion_id : String)
  | dbSelectMetal (conversion_id : String)
  | dbUpdate (id : String) (u : JobUpdate)
  | httpPost (url : String) (req : CadRequest) (timeoutMs : Nat)
  | storageUpload (path : String) (content : String) (contentType : String) (upsert : Bool)
  | storageGetPublicUrl (path : String)
deriving DecidableEq

/-- Storage path of the STEP file for a conversion id. -/
def stepPath (cid : String) : String := "step/design_" ++ cid ++ ".step"

/-- Storage path of the STL file for a conversion id. -/
def stlPath (cid : String) : String := "stl/design_" ++ cid ++ ".stl"

/-- Storage path of the OBJ file for a conversion id. -/
def objPath (cid : String) : String := "obj/design_" ++ cid ++ ".obj"

/-- Translation of one gemstone row into its payload entry, with the
`Number(...)` coercions of the source. -/
def gemPayload (g : GemstoneSpec) : GemPayload :=
  { shape := g.shape, size_mm := jsNumber g.mm_size,
    dia_wt := jsNumber g.dia_wt, quantity := g.quantity,
    setting_type := g.setting_type }

/-- Translation of the metal row into the metal_specs payload object. -/
def metalPayload (m : MetalSpec) : MetalPayload :=
  { type := m.color, karat := m.karat,
    weight_grams := jsNumber m.gold_weight, tone := m.tone }

/-- The cadReq object of the source: `gemSpecs?.map(...) || []` maps the
gemstone rows when the query returned data and falls back to the empty
list when it returned null. -/
def buildCadReq (svgUrl cid : String) (gemSpecs : Option (List GemstoneSpec))
    (m : MetalSpec) : CadRequest :=
  { svg_url := svgUrl, design_id := cid,
    gemstone_specs := (gemSpecs.map (List.map gemPayload)).getD [],
    metal_specs := metalPayload m }

/-- The external collaborators of one invocation: job store, spec tables,
CAD service, public-URL resolver, configured CAD base URL and the clock. -/
structure World where
  cadUrl : String
  jobs : String → Option ConversionJob
  gemRows : String → Option (List GemstoneSpec)
  metalRow : String → Option MetalSpec
  cad : CadRequest → CadResult
  publicUrl : String → String
  now : String

/-- The protected region (the try block, steps 1-8 of the source).
Returns the effect trace on success, or the thrown error together with
the effects performed before the throw. -/
def tryPipeline (w : World) (conversionId : String) :
    Except (JsError × List Effect) (List Effect) :=
  match w.jobs conversionId with
  | none =>
      Except.error (JsError.errorObj "Conversion not found",
        [Effect.dbSelectJob conversionId])
  | some conv =>
    match truthy conv.vectorized_svg_url with
    | none =>
        Except.error (JsError.errorObj "No vector SVG URL on conversion",
          [Effect.dbSelectJob conversionId])
    | some svgUrl =>
      match w.metalRow conversionId with
      | none =>
          Except.error (JsError.errorObj "Missing metal specs",
            [Effect.dbSelectJob conversionId,
             Effect.dbUpdate conversionId generatingUpdate,
             Effect.dbSelectGems conversionId,
             Effect.dbSelectMetal conversionId])
      | some metal =>
        match w.cad (buildCadReq svgUrl conversionId (w.gemRows conversionId) metal) with
        | CadResult.transportError s =>
            Except.error (JsError.thrown s,
              [Effect.dbSelectJob conversionId,
               Effect.dbUpdate conversionId generatingUpdate,
               Effect.dbSelectGems conversionId,
               Effect.dbSelectMetal conversionId,
               Effect.httpPost (w.cadUrl ++ "/convert")
                 (buildCadReq svgUrl conversionId (w.gemRows conversionId) metal) 300000])
        | CadResult.response resp =>
          if !resp.ok then
            Except.error (JsError.errorObj ("CAD service error: " ++ resp.bodyText),
              [Effect.dbSelectJob conversionId,
               Effect.dbUpdate conversionId generatingUpdate,
               Effect.dbSelectGems conversionId,
               Effect.dbSelectMetal conversionId,
               Effect.httpPost (w.cadUrl ++ "/convert")
                 (buildCadReq svgUrl conversionId (w.gemRows conversionId) metal) 300000])
          else
            match resp.json with
            | Except.error s =>
                Except.error (JsError.thrown s,
                  [Effect.dbSelectJob conversionId,
                   Effect.dbUpdate conversionId generatingUpdate,
                   Effect.dbSelectGems conversionId,
                   Effect.dbSelectMetal conversionId,
                   Effect.httpPost (w.cadUrl ++ "/convert")
                     (buildCadReq svgUrl conversionId (w.gemRows conversionId) metal) 300000])
            | Except.ok cadJson =>
                Except.ok
                  [Effect.dbSelectJob conversionId,
                   Effect.dbUpdate conversionId generatingUpdate,
                   Effect.dbSelectGems conversionId,
                   Effect.dbSelectMetal conversionId,
                   Effect.httpPost (w.cadUrl ++ "/convert")
                     (buildCadReq svgUrl conversionId (w.gemRows conversionId) metal) 300000,
                   Effect.storageUpload (stepPath conversionId) cadJson.step_file "model/step" true,
                   Effect.storageUpload (stlPath conversionId) cadJson.stl_file "model/stl" true,
                   Effect.storageUpload (objPath conversionId) cadJson.obj_file "model/obj" true,
                   Effect.storageGetPublicUrl (stepPath conversionId),
                   Effect.storageGetPublicUrl (stlPath conversionId),
                   Effect.storageGetPublicUrl (objPath conversionId),
                   Effect.dbUpdate conversionId
                     (completedUpdate (w.publicUrl (stepPath conversionId))
                       (w.publicUrl (stlPath conversionId))
                       (w.publicUrl (objPath conversionId)) w.now)]

/-- Request method, as distinguished by the source. -/
inductive Method where
  | options
  | post
  | other
deriving DecidableEq

/-- The parsed request body. -/
structure RequestBody where
  conversionId : String
  userId : String
deriving DecidableEq

/-- An incoming request: the method and the outcome of `req.json()`
(`none` when the body fails to parse as JSON). -/
structure Request where
  method : Method
  body : Option RequestBody
deriving DecidableEq

/-- A response body, as built by the source's `JSON.stringify` calls. -/
inductive RespBody where
  | empty
  | methodNotAllowed
  | invalidJson
  | success (conversionId : String)
  | failure (error : String)
deriving DecidableEq

/-- An HTTP response of the handler. -/
structure HttpResponse where
  status : Nat
  body : RespBody
deriving DecidableEq

/-- The serve handler: CORS preflight, method check, body parse, the
protected region, and the catch block that marks the job failed when the
parsed conversion id is truthy. -/
def handle (w : World) (req : Request) : HttpResponse × List Effect :=
  match req.method with
  | Method.options => ({ status := 204, body := RespBody.empty }, [])
  | Method.other => ({ status := 405, body := RespBody.methodNotAllowed }, [])
  | Method.post =>
    match req.body with
    | none => ({ status := 400, body := RespBody.invalidJson }, [])
    | some b =>
      let conversionId := b.conversionId
      match tryPipeline w conversionId with
      | Except.ok effs =>
          ({ status := 200, body := RespBody.success conversionId }, effs)
      | Except.error (err, effs) =>
          let effs :=
            if conversionId = "" then effs
            else effs ++ [Effect.dbUpdate conversionId (failedUpdate err)]
          ({ status := 500, body := RespBody.failure (stringOfError err) }, effs)

/-- Interpretation of one update effect on the job store: a supabase
`.update(...).eq("id", ...)` assigns exactly the columns present in the
update object, on the matching rows only; it never creates rows. -/
def applyJobUpdate (u : JobUpdate) (j : ConversionJob) : ConversionJob :=
  { j with
    status := u.status,
    current_step := u.current_step,
    cad_file_url := match u.cad_file_url with | some s => some s | none => j.cad_file_url,
    stl_file_url := match u.stl_file_url with | some s => some s | none => j.stl_file_url,
    obj_file_url := match u.obj_file_url with | some s => some s | none => j.obj_file_url,
    completed_at := match u.completed_at with | some s => some s | none => j.completed_at,
    error_message := match u.error_message with | some s => some s | none => j.error_message }

/-- Interpretation of one effect on the job store. -/
def applyEffect (jobs : String → Option ConversionJob) :
    Effect → (String → Option ConversionJob)
  | Effect.dbUpdate id u => fun k =>
      if k = id then (jobs k).map (applyJobUpdate u) else jobs k
  | _ => jobs

/-- The job store after all effects of a trace have been applied. -/
def finalJobs (jobs : String → Option ConversionJob) (effs : List Effect) :
    String → Option ConversionJob :=
  effs.foldl applyEffect jobs

/-- An object stored in the cad-files bucket. -/
structure StoredObject where
  content : String
  contentType : String
deriving DecidableEq

/-- Interpretation of one effect on the storage bucket: with upsert an
upload overwrites, without upsert it only writes when the path is free
(the supabase client reports an error, which the source ignores). -/
def applyStorageEffect (σ : String → Option StoredObject) :
    Effect → (String → Option StoredObject)
  | Effect.storageUpload path content ct upsert => fun k =>
      if k = path then
        if upsert then some { content := content, contentType := ct }
        else
          match σ k with
          | some o => some o
          | none => some { content := content, contentType := ct }
      else σ k
  | _ => σ

/-- The bucket contents after all effects of a trace have been applied. -/
def finalStorage (σ : String → Option StoredObject) (effs : List Effect) :
    String → Option StoredObject :=
  effs.foldl applyStorageEffect σ

/-- Whether an effect is a job update setting status to failed. -/
def isFailedUpdate : Effect → Bool
  | Effect.dbUpdate _ u => u.status == "failed"
  | _ => false

/-- Whether an effect is the outbound HTTP call. -/
def isHttpPost : Effect → Bool
  | Effect.httpPost _ _ _ => true
  | _ => false

/-- Whether an effect is a storage upload. -/
def isUpload : Effect → Bool
  | Effect.storageUpload _ _ _ _ => true
  | _ => false

/-- A POST request with a successfully parsed body. -/
def postReq (cid u : String) : Request :=
  { method := Method.post, body := some { conversionId := cid, userId := u } }

/-- The effect trace of a fully successful invocation. -/
def successEffects (w : World) (cid svg : String) (gems : Option (List GemstoneSpec))
    (m : MetalSpec) (files : CadFiles) : List Effect :=
  [Effect.dbSelectJob cid,
   Effect.dbUpdate cid generatingUpdate,
   Effect.dbSelectGems cid,
   Effect.dbSelectMetal cid,
   Effect.httpPost (w.cadUrl ++ "/convert") (buildCadReq svg cid gems m) 300000,
   Effect.storageUpload (stepPath cid) files.step_file "model/step" true,
   Effect.storageUpload (stlPath cid) files.stl_file "model/stl" true,
   Effect.storageUpload (objPath cid) files.obj_file "model/obj" true,
   Effect.storageGetPublicUrl (stepPath cid),
   Effect.storageGetPublicUrl (stlPath cid),
   Effect.storageGetPublicUrl (objPath cid),
   Effect.dbUpdate cid (completedUpdate (w.publicUrl (stepPath cid))
     (w.publicUrl (stlPath cid)) (w.publicUrl (objPath cid)) w.now)]

lemma tryPipeline_success (w : World) {cid svg : String} {conv : ConversionJob}
    {m : MetalSpec} {r : CadHttpResponse} {files : CadFiles}
    (hjob : w.jobs cid = some conv)
    (hsvg : conv.vectorized_svg_url = some svg) (hne : svg ≠ "")
    (hm : w.metalRow cid = some m)
    (hcad : w.cad (buildCadReq svg cid (w.gemRows cid) m) = CadResult.response r)
    (hok : r.ok = true) (hjson : r.json = Except.ok files) :
    tryPipeline w cid = Except.ok (successEffects w cid svg (w.gemRows cid) m files) := by
  simp [tryPipeline, hjob, hsvg, truthy, hne, hm, hcad, hok, hjson, successEffects]

lemma handle_ok (w : World) {cid : String} (u : String) {effs : List Effect}
    (h : tryPipeline w cid = Except.ok effs) :
    handle w (postReq cid u) =
      ({ status := 200, body := RespBody.success cid }, effs) := by
  simp [handle, postReq, h]

lemma handle_error (w : World) {cid : String} (u : String) {err : JsError}
    {effs : List Effect} (h : tryPipeline w cid = Except.error (err, effs))
    (hid : cid ≠ "") :
    handle w (postReq cid u) =
      ({ status := 500, body := RespBody.failure (stringOfError err) },
       effs ++ [Effect.dbUpdate cid (failedUpdate err)]) := by
  simp [handle, postReq, h, hid]

lemma tryPipeline_notFound (w : World) {cid : String} (hjob : w.jobs cid = none) :
    tryPipeline w cid =
      Except.error (JsError.errorObj "Conversion not found", [Effect.dbSelectJob cid]) := by
  simp [tryPipeline, hjob]

lemma tryPipeline_noMetal (w : World) {cid svg : String} {conv : ConversionJob}
    (hjob : w.jobs cid = some conv)
    (hsvg : conv.vectorized_svg_url = some svg) (hne : svg ≠ "")
    (hm : w.metalRow cid = none) :
    tryPipeline w cid =
      Except.error (JsError.errorObj "Missing metal specs",
        [Effect.dbSelectJob cid, Effect.dbUpdate cid generatingUpdate,
         Effect.dbSelectGems cid, Effect.dbSelectMetal cid]) := by
  simp [tryPipeline, hjob, hsvg, truthy, hne, hm]

lemma tryPipeline_notOk (w : World) {cid svg : String} {conv : ConversionJob}
    {m : MetalSpec} {r : CadHttpResponse}
    (hjob : w.jobs cid = some conv)
    (hsvg : conv.vectorized_svg_url = some svg) (hne : svg ≠ "")
    (hm : w.metalRow cid = some m)
    (hcad : w.cad (buildCadReq svg cid (w.gemRows cid) m) = CadResult.response r)
    (hok : r.ok = false) :
    tryPipeline w cid =
      Except.error (JsError.errorObj ("CAD service error: " ++ r.bodyText),
        [Effect.dbSelectJob cid, Effect.dbUpdate cid generatingUpdate,
         Effect.dbSelectGems cid, Effect.dbSelectMetal cid,
         Effect.httpPost (w.cadUrl ++ "/convert")
           (buildCadReq svg cid (w.gemRows cid) m) 300000]) := by
  simp [tryPipeline, hjob, hsvg, truthy, hne, hm, hcad, hok]

lemma finalJobs_success (w : World) {cid : String} (svg : String)
    (gems : Option (List GemstoneSpec)) (m : MetalSpec) (files : CadFiles)
    {conv : ConversionJob} (hjob : w.jobs cid = some conv) :
    finalJobs w.jobs (successEffects w cid svg gems m files) cid =
      some (applyJobUpdate
        (completedUpdate (w.publicUrl (stepPath cid)) (w.publicUrl (stlPath cid))
          (w.publicUrl (objPath cid)) w.now)
        (applyJobUpdate generatingUpdate conv)) := by
  simp [finalJobs, successEffects, applyEffect, hjob]

/-- Claim C1: for every request whose body parses to a conversionId
identifying an existing job with a non-empty vectorized_svg_url and exactly
one metal-spec row, if the CAD service responds with success carrying the
three file payloads (uploads and URL resolutions cannot fail in this model:
the source discards upload results and getPublicUrl is total), the handler
updates the job to status completed with cad_file_url, stl_file_url,
obj_file_url populated and completed_at set, and returns 200 with body
success/conversionId. -/
theorem C1_success_completes (w : World) (cid u svg : String)
    (conv : ConversionJob) (m : MetalSpec) (r : CadHttpResponse) (files : CadFiles)
    (hjob : w.jobs cid = some conv)
    (hsvg : conv.vectorized_svg_url = some svg) (hne : svg ≠ "")
    (hm : w.metalRow cid = some m)
    (hcad : w.cad (buildCadReq svg cid (w.gemRows cid) m) = CadResult.response r)
    (hok : r.ok = true) (hjson : r.json = Except.ok files) :
    (handle w (postReq cid u)).1 = { status := 200, body := RespBody.success cid } ∧
    ∃ j, finalJobs w.jobs (handle w (postReq cid u)).2 cid = some j ∧
      j.status = "completed" ∧
      j.cad_file_url = some (w.publicUrl (stepPath cid)) ∧
      j.stl_file_url = some (w.publicUrl (stlPath cid)) ∧
      j.obj_file_url = some (w.publicUrl (objPath cid)) ∧
      j.completed_at = some w.now := by
  have h := tryPipeline_success w hjob hsvg hne hm hcad hok hjson
  rw [handle_ok w u h]
  exact ⟨rfl, _, finalJobs_success w svg (w.gemRows cid) m files hjob,
    rfl, rfl, rfl, rfl, rfl⟩

/-- The example job of the spec's scenario (section 8). -/
def jobA : ConversionJob :=
  { id := "abc123", status := "pending", current_step := 2,
    vectorized_svg_url := some "https://x/vec.svg",
    cad_file_url := none, stl_file_url := none, obj_file_url := none,
    completed_at := none, error_message := none }

/-- The example metal spec of the spec's scenario. -/
def metalA : MetalSpec :=
  { conversion_id := "abc123", color := "yellow", karat := 18,
    gold_weight := JsPrim.str "5.2", tone := "warm" }

/-- Concrete CAD response files. -/
def filesA : CadFiles :=
  { step_file := "STEPDATA", stl_file := "STLDATA", obj_file := "OBJDATA" }

/-- A CAD-service response: 2xx, parseable JSON with the three files. -/
def respA : CadHttpResponse :=
  { ok := true, bodyText := "", json := Except.ok filesA }

/-- A world in which job abc123 exists with a vector SVG, one metal spec,
no gemstone specs, and a healthy CAD service. -/
def wOk : World :=
  { cadUrl := "https://cad.example",
    jobs := fun id => if id = "abc123" then some jobA else none,
    gemRows := fun _ => some [],
    metalRow := fun id => if id = "abc123" then some metalA else none,
    cad := fun _ => CadResult.response respA,
    publicUrl := fun p => "https://pub/" ++ p,
    now := "2026-01-01T00:00:00Z" }

/-- Witness for C1 at the spec's example scenario. -/
theorem C1_success_completes_witness :
    (handle wOk (postReq "abc123" "u1")).1 =
      { status := 200, body := RespBody.success "abc123" } ∧
    ∃ j, finalJobs wOk.jobs (handle wOk (postReq "abc123" "u1")).2 "abc123" = some j ∧
      j.status = "completed" ∧
      j.cad_file_url = some (wOk.publicUrl (stepPath "abc123")) ∧
      j.stl_file_url = some (wOk.publicUrl (stlPath "abc123")) ∧
      j.obj_file_url = some (wOk.publicUrl (objPath "abc123")) ∧
      j.completed_at = some wOk.now :=
  C1_success_completes wOk "abc123" "u1" "https://x/vec.svg" jobA metalA respA filesA
    (by decide) rfl (by decide) (by decide) rfl rfl rfl

lemma isFailedUpdate_dbSelectJob (i : String) :
    isFailedUpdate (Effect.dbSelectJob i) = false := rfl

lemma isFailedUpdate_dbSelectGems (i : String) :
    isFailedUpdate (Effect.dbSelectGems i) = false := rfl

lemma isFailedUpdate_dbSelectMetal (i : String) :
    isFailedUpdate (Effect.dbSelectMetal i) = false := rfl

lemma isFailedUpdate_httpPost (url : String) (r : CadRequest) (t : Nat) :
    isFailedUpdate (Effect.httpPost url r t) = false := rfl

lemma isFailedUpdate_upload (p c ct : String) (b : Bool) :
    isFailedUpdate (Effect.storageUpload p c ct b) = false := rfl

lemma isFailedUpdate_publicUrl (p : String) :
    isFailedUpdate (Effect.storageGetPublicUrl p) = false := rfl

lemma isFailedUpdate_generating (i : String) :
    isFailedUpdate (Effect.dbUpdate i generatingUpdate) = false := rfl

lemma isFailedUpdate_completed (i : String) (a b c d : String) :
    isFailedUpdate (Effect.dbUpdate i (completedUpdate a b c d)) = false := by
  simp [isFailedUpdate, completedUpdate]

lemma isFailedUpdate_failed (i : String) (err : JsError) :
    isFailedUpdate (Effect.dbUpdate i (failedUpdate err)) = true := by
  simp [isFailedUpdate, failedUpdate]

/-- The protected region itself never writes a failed status: the only
failed-status update is the one appended by the catch block. -/
lemma tryPipeline_error_no_failed {w : World} {cid : String} {err : JsError}
    {effs : List Effect} (h : tryPipeline w cid = Except.error (err, effs)) :
    effs.countP isFailedUpdate = 0 := by
  unfold tryPipeline at h
  repeat' split at h
  any_goals exact Except.noConfusion h
  all_goals
    injection h with h1
    injection h1 with h2 h3
    subst h3
    simp [isFailedUpdate_dbSelectJob, isFailedUpdate_dbSelectGems,
      isFailedUpdate_dbSelectMetal, isFailedUpdate_httpPost,
      isFailedUpdate_generating, isFailedUpdate_upload, isFailedUpdate_publicUrl,
      isFailedUpdate_completed]

/-- Claim C2: for every exception raised at any step inside the protected
region, when the parsed job id is known (the source's truthiness guard:
non-empty), the handler writes exactly one job update setting status
failed, current_step 0, and error_message the stringified error, and
returns 500 with body failure/stringified error, regardless of which step
raised. -/
theorem C2_catch_marks_failed (w : World) (cid u : String) (err : JsError)
    (effs : List Effect)
    (herr : tryPipeline w cid = Except.error (err, effs)) (hid : cid ≠ "") :
    handle w (postReq cid u) =
      ({ status := 500, body := RespBody.failure (stringOfError err) },
       effs ++ [Effect.dbUpdate cid (failedUpdate err)]) ∧
    (handle w (postReq cid u)).2.countP isFailedUpdate = 1 := by
  have h2 := handle_error w u herr hid
  refine ⟨h2, ?_⟩
  rw [h2]
  simp [List.countP_append, tryPipeline_error_no_failed herr,
    isFailedUpdate_failed]

/-- A world in which no job, no spec rows and no CAD service exist. -/
def wEmpty : World :=
  { cadUrl := "https://cad.example",
    jobs := fun _ => none,
    gemRows := fun _ => none,
    metalRow := fun _ => none,
    cad := fun _ => CadResult.transportError "TypeError: error sending request",
    publicUrl := fun p => p,
    now := "2026-01-01T00:00:00Z" }

/-- Witness for C2: a missing job raises, the catch block writes the single
failed update and answers 500. -/
theorem C2_catch_marks_failed_witness :
    handle wEmpty (postReq "job9" "u1") =
      ({ status := 500, body := RespBody.failure (stringOfError (JsError.errorObj "Conversion not found")) },
       [Effect.dbSelectJob "job9"] ++
         [Effect.dbUpdate "job9" (failedUpdate (JsError.errorObj "Conversion not found"))]) ∧
    (handle wEmpty (postReq "job9" "u1")).2.countP isFailedUpdate = 1 :=
  C2_catch_marks_failed wEmpty "job9" "u1" (JsError.errorObj "Conversion not found")
    [Effect.dbSelectJob "job9"] rfl (by decide)

/-- Claim C6: for every POST request whose body fails to parse as JSON,
the handler returns 400 with body invalidJson and performs no effect at
all against the job store or any other collaborator. -/
theorem C6_invalid_json_no_effects (w : World) :
    handle w { method := Method.post, body := none } =
      ({ status := 400, body := RespBody.invalidJson }, []) := rfl

/-- Claim C10: two POST requests whose parsed bodies differ only in the
userId field produce identical responses and identical effect traces:
the outcome is fully determined by conversionId and the collaborators,
and userId is never read after destructuring. -/
theorem C10_userId_noninterference (w : World) (cid u1 u2 : String) :
    handle w (postReq cid u1) = handle w (postReq cid u2) := rfl

/-- The effects performed up to and including the CAD-service call. -/
def preCallEffects (w : World) (cid svg : String) (m : MetalSpec) : List Effect :=
  [Effect.dbSelectJob cid,
   Effect.dbUpdate cid generatingUpdate,
   Effect.dbSelectGems cid,
   Effect.dbSelectMetal cid,
   Effect.httpPost (w.cadUrl ++ "/convert")
     (buildCadReq svg cid (w.gemRows cid) m) 300000]

lemma tryPipeline_transport (w : World) {cid svg : String} {conv : ConversionJob}
    {m : MetalSpec} {s : String}
    (hjob : w.jobs cid = some conv)
    (hsvg : conv.vectorized_svg_url = some svg) (hne : svg ≠ "")
    (hm : w.metalRow cid = some m)
    (hcad : w.cad (buildCadReq svg cid (w.gemRows cid) m) = CadResult.transportError s) :
    tryPipeline w cid = Except.error (JsError.thrown s, preCallEffects w cid svg m) := by
  simp [tryPipeline, hjob, hsvg, truthy, hne, hm, hcad, preCallEffects]

lemma tryPipeline_jsonError (w : World) {cid svg : String} {conv : ConversionJob}
    {m : MetalSpec} {r : CadHttpResponse} {s : String}
    (hjob : w.jobs cid = some conv)
    (hsvg : conv.vectorized_svg_url = some svg) (hne : svg ≠ "")
    (hm : w.metalRow cid = some m)
    (hcad : w.cad (buildCadReq svg cid (w.gemRows cid) m) = CadResult.response r)
    (hok : r.ok = true) (hjson : r.json = Except.error s) :
    tryPipeline w cid = Except.error (JsError.thrown s, preCallEffects w cid svg m) := by
  simp [tryPipeline, hjob, hsvg, truthy, hne, hm, hcad, hok, hjson, preCallEffects]

/-- The payload builder, written the way the spec states the contract:
map the rows obtained (defaulting to none), coercing the numeric fields. -/
lemma buildCadReq_spec (svg cid : String) (gems : Option (List GemstoneSpec))
    (m : MetalSpec) :
    buildCadReq svg cid gems m =
      { svg_url := svg, design_id := cid,
        gemstone_specs := (gems.getD []).map (fun g =>
          { shape := g.shape, size_mm := jsNumber g.mm_size,
            dia_wt := jsNumber g.dia_wt, quantity := g.quantity,
            setting_type := g.setting_type }),
        metal_specs := { type := m.color, karat := m.karat,
                         weight_grams := jsNumber m.gold_weight,
                         tone := m.tone } } := by
  cases gems <;> rfl

/-- Any run that passes the preconditions performs the CAD call: its trace
starts with the five pre-call effects and contains no further HTTP call. -/
lemma handle_effects_call (w : World) (cid u svg : String) (conv : ConversionJob)
    (m : MetalSpec)
    (hjob : w.jobs cid = some conv)
    (hsvg : conv.vectorized_svg_url = some svg) (hne : svg ≠ "")
    (hm : w.metalRow cid = some m) :
    ∃ rest, (handle w (postReq cid u)).2 = preCallEffects w cid svg m ++ rest ∧
      rest.countP isHttpPost = 0 := by
  rcases hc : w.cad (buildCadReq svg cid (w.gemRows cid) m) with s | r
  · have h := tryPipeline_transport w hjob hsvg hne hm hc
    simp only [handle, postReq, h]
    by_cases hcid : cid = "" <;>
      simp [hcid, isHttpPost]
  · by_cases hok : r.ok
    · rcases hj : r.json with s | files
      · have h := tryPipeline_jsonError w hjob hsvg hne hm hc hok hj
        simp only [handle, postReq, h]
        by_cases hcid : cid = "" <;>
          simp [hcid, isHttpPost]
      · have h := tryPipeline_success w hjob hsvg hne hm hc hok hj
        rw [handle_ok w u h]
        refine ⟨[Effect.storageUpload (stepPath cid) files.step_file "model/step" true,
                 Effect.storageUpload (stlPath cid) files.stl_file "model/stl" true,
                 Effect.storageUpload (objPath cid) files.obj_file "model/obj" true,
                 Effect.storageGetPublicUrl (stepPath cid),
                 Effect.storageGetPublicUrl (stlPath cid),
                 Effect.storageGetPublicUrl (objPath cid),
                 Effect.dbUpdate cid (completedUpdate (w.publicUrl (stepPath cid))
                   (w.publicUrl (stlPath cid)) (w.publicUrl (objPath cid)) w.now)],
                ?_, ?_⟩
        · simp [successEffects, preCallEffects]
        · simp [isHttpPost, isFailedUpdate_completed, List.countP_cons]
    · have h := tryPipeline_notOk w hjob hsvg hne hm hc (by simpa using hok)
      simp only [handle, postReq, h]
      by_cases hcid : cid = "" <;>
        simp [hcid, isHttpPost, preCallEffects]

/-- Claim C3: for every request where the metal-spec lookup for the
conversion id yields no row (the job itself existing with a truthy
artifact URL, its id non-empty as real job ids are), the handler aborts
before issuing the outbound HTTP call and before any upload, and the job
is marked failed. -/
theorem C3_missing_metal_aborts (w : World) (cid u svg : String)
    (conv : ConversionJob)
    (hjob : w.jobs cid = some conv)
    (hsvg : conv.vectorized_svg_url = some svg) (hne : svg ≠ "")
    (hm : w.metalRow cid = none) (hid : cid ≠ "") :
    (handle w (postReq cid u)).2.countP isHttpPost = 0 ∧
    (handle w (postReq cid u)).2.countP isUpload = 0 ∧
    ∃ j, finalJobs w.jobs (handle w (postReq cid u)).2 cid = some j ∧
      j.status = "failed" := by
  have h := tryPipeline_noMetal w hjob hsvg hne hm
  rw [handle_error w u h hid]
  refine ⟨?_, ?_, ?_⟩
  · simp [isHttpPost]
  · simp [isUpload]
  · refine ⟨applyJobUpdate (failedUpdate (JsError.errorObj "Missing metal specs"))
      (applyJobUpdate generatingUpdate conv), ?_, rfl⟩
    simp [finalJobs, applyEffect, hjob]

/-- A world like wOk but with no metal-spec row for any job. -/
def wNoMetal : World := { wOk with metalRow := fun _ => none }

/-- Witness for C3: job abc123 exists with its vector SVG but the metal
spec is missing. -/
theorem C3_missing_metal_aborts_witness :
    (handle wNoMetal (postReq "abc123" "u1")).2.countP isHttpPost = 0 ∧
    (handle wNoMetal (postReq "abc123" "u1")).2.countP isUpload = 0 ∧
    ∃ j, finalJobs wNoMetal.jobs (handle wNoMetal (postReq "abc123" "u1")).2 "abc123" =
        some j ∧ j.status = "failed" :=
  C3_missing_metal_aborts wNoMetal "abc123" "u1" "https://x/vec.svg" jobA
    (by decide) rfl (by decide) rfl (by decide)

/-- Claim C4: for every run in which the CAD service returns a non-2xx
status, the job is marked failed with the response body text captured
inside error_message, and no storage upload is attempted. -/
theorem C4_cad_error_no_upload (w : World) (cid u svg : String)
    (conv : ConversionJob) (m : MetalSpec) (r : CadHttpResponse)
    (hjob : w.jobs cid = some conv)
    (hsvg : conv.vectorized_svg_url = some svg) (hne : svg ≠ "")
    (hm : w.metalRow cid = some m)
    (hcad : w.cad (buildCadReq svg cid (w.gemRows cid) m) = CadResult.response r)
    (hok : r.ok = false) (hid : cid ≠ "") :
    (handle w (postReq cid u)).2.countP isUpload = 0 ∧
    ∃ j, finalJobs w.jobs (handle w (postReq cid u)).2 cid = some j ∧
      j.status = "failed" ∧
      j.error_message = some ("Error: " ++ ("CAD service error: " ++ r.bodyText)) := by
  have h := tryPipeline_notOk w hjob hsvg hne hm hcad (by simp [hok])
  rw [handle_error w u h hid]
  refine ⟨?_, ?_⟩
  · simp [isUpload]
  · refine ⟨applyJobUpdate
      (failedUpdate (JsError.errorObj ("CAD service error: " ++ r.bodyText)))
      (applyJobUpdate generatingUpdate conv), ?_, rfl, rfl⟩
    simp [finalJobs, applyEffect, hjob]

/-- A CAD-service response with a non-2xx status. -/
def respBad : CadHttpResponse :=
  { ok := false, bodyText := "boom",
    json := Except.error "SyntaxError: Unexpected token b" }

/-- A world like wOk but whose CAD service answers non-2xx. -/
def wBadCad : World := { wOk with cad := fun _ => CadResult.response respBad }

/-- Witness for C4: the CAD service answers a non-2xx status with body
boom; no upload happens and the job fails with the body captured. -/
theorem C4_cad_error_no_upload_witness :
    (handle wBadCad (postReq "abc123" "u1")).2.countP isUpload = 0 ∧
    ∃ j, finalJobs wBadCad.jobs (handle wBadCad (postReq "abc123" "u1")).2 "abc123" =
        some j ∧ j.status = "failed" ∧
      j.error_message = some ("Error: " ++ ("CAD service error: " ++ respBad.bodyText)) :=
  C4_cad_error_no_upload wBadCad "abc123" "u1" "https://x/vec.svg" jobA metalA respBad
    (by decide) rfl (by decide) rfl rfl rfl (by decide)

/-- Claim C5: every run that reaches the external call sends exactly one
POST, to cadUrl/convert, whose payload carries the artifact URL, the
conversion id as design_id, the gemstone rows mapped with size_mm and
dia_wt coerced by Number, and the metal row with weight_grams coerced by
Number, under a 300000 ms timeout; expiry of that timeout is a transport
failure answered as a 500, not a hang. -/
theorem C5_cad_call_contract (w : World) (cid u svg : String)
    (conv : ConversionJob) (m : MetalSpec)
    (hjob : w.jobs cid = some conv)
    (hsvg : conv.vectorized_svg_url = some svg) (hne : svg ≠ "")
    (hm : w.metalRow cid = some m) :
    (handle w (postReq cid u)).2.countP isHttpPost = 1 ∧
    Effect.httpPost (w.cadUrl ++ "/convert")
      { svg_url := svg, design_id := cid,
        gemstone_specs := ((w.gemRows cid).getD []).map (fun g =>
          { shape := g.shape, size_mm := jsNumber g.mm_size,
            dia_wt := jsNumber g.dia_wt, quantity := g.quantity,
            setting_type := g.setting_type }),
        metal_specs := { type := m.color, karat := m.karat,
                         weight_grams := jsNumber m.gold_weight,
                         tone := m.tone } } 300000
      ∈ (handle w (postReq cid u)).2 ∧
    (∀ s, w.cad (buildCadReq svg cid (w.gemRows cid) m) = CadResult.transportError s →
      (handle w (postReq cid u)).1 = { status := 500, body := RespBody.failure s }) := by
  obtain ⟨rest, hEq, hCount⟩ := handle_effects_call w cid u svg conv m hjob hsvg hne hm
  refine ⟨?_, ?_, ?_⟩
  · rw [hEq]
    simp [List.countP_append, preCallEffects, isHttpPost, hCount]
  · rw [hEq]
    simp [preCallEffects, buildCadReq_spec]
  · intro s hs
    have h := tryPipeline_transport w hjob hsvg hne hm hs
    simp [handle, postReq, h, stringOfError]

/-- Witness for C5 at the wOk scenario. -/
theorem C5_cad_call_contract_witness :
    (handle wOk (postReq "abc123" "u1")).2.countP isHttpPost = 1 ∧
    Effect.httpPost (wOk.cadUrl ++ "/convert")
      { svg_url := "https://x/vec.svg", design_id := "abc123",
        gemstone_specs := ((wOk.gemRows "abc123").getD []).map (fun g =>
          { shape := g.shape, size_mm := jsNumber g.mm_size,
            dia_wt := jsNumber g.dia_wt, quantity := g.quantity,
            setting_type := g.setting_type }),
        metal_specs := { type := metalA.color, karat := metalA.karat,
                         weight_grams := jsNumber metalA.gold_weight,
                         tone := metalA.tone } } 300000
      ∈ (handle wOk (postReq "abc123" "u1")).2 ∧
    (∀ s, wOk.cad (buildCadReq "https://x/vec.svg" "abc123" (wOk.gemRows "abc123") metalA) =
        CadResult.transportError s →
      (handle wOk (postReq "abc123" "u1")).1 = { status := 500, body := RespBody.failure s }) :=
  C5_cad_call_contract wOk "abc123" "u1" "https://x/vec.svg" jobA metalA
    (by decide) rfl (by decide) rfl

/-- Claim C9: when the gemstone-spec read yields no data (null result or
zero rows), the handler neither fails nor marks the job failed on that
account: the trace begins with the five pre-call effects (none of them a
failed-status write) and the CAD call is made with gemstone_specs empty. -/
theorem C9_no_gems_empty_list (w : World) (cid u svg : String)
    (conv : ConversionJob) (m : MetalSpec)
    (hjob : w.jobs cid = some conv)
    (hsvg : conv.vectorized_svg_url = some svg) (hne : svg ≠ "")
    (hm : w.metalRow cid = some m)
    (hgem : w.gemRows cid = none ∨ w.gemRows cid = some []) :
    ∃ rest, (handle w (postReq cid u)).2 = preCallEffects w cid svg m ++ rest ∧
      (buildCadReq svg cid (w.gemRows cid) m).gemstone_specs = [] ∧
      (preCallEffects w cid svg m).countP isFailedUpdate = 0 := by
  obtain ⟨rest, hEq, -⟩ := handle_effects_call w cid u svg conv m hjob hsvg hne hm
  refine ⟨rest, hEq, ?_, ?_⟩
  · rcases hgem with h | h <;> simp [buildCadReq, h]
  · simp [preCallEffects, List.countP_cons, isFailedUpdate_dbSelectJob,
      isFailedUpdate_dbSelectGems, isFailedUpdate_dbSelectMetal,
      isFailedUpdate_httpPost, isFailedUpdate_generating]

/-- Witness for C9: wOk's gemstone query returns zero rows. -/
theorem C9_no_gems_empty_list_witness :
    ∃ rest, (handle wOk (postReq "abc123" "u1")).2 =
        preCallEffects wOk "abc123" "https://x/vec.svg" metalA ++ rest ∧
      (buildCadReq "https://x/vec.svg" "abc123" (wOk.gemRows "abc123") metalA).gemstone_specs = [] ∧
      (preCallEffects wOk "abc123" "https://x/vec.svg" metalA).countP isFailedUpdate = 0 :=
  C9_no_gems_empty_list wOk "abc123" "u1" "https://x/vec.svg" jobA metalA
    (by decide) rfl (by decide) rfl (Or.inr rfl)

lemma applyEffect_none {jobs : String → Option ConversionJob} {k : String}
    (h : jobs k = none) (e : Effect) : applyEffect jobs e k = none := by
  cases e <;> simp [applyEffect, h]

/-- Updates never create rows: a conversion id absent from the store stays
absent through any effect trace. -/
lemma finalJobs_none {jobs : String → Option ConversionJob} {k : String}
    (effs : List Effect) (h : jobs k = none) :
    finalJobs jobs effs k = none := by
  induction effs generalizing jobs with
  | nil => simpa [finalJobs] using h
  | cons e t ih =>
      simp only [finalJobs, List.foldl_cons] at ih ⊢
      exact ih (applyEffect_none h e)

/-- Counterexample to claim C7 as stated: with a parsed body whose
conversionId is the empty string (falsy in JavaScript) and no matching
job, the handler answers 500 but issues no failed-status update at all:
the catch-block guard skips the write although the id was parsed from
the body. -/
theorem C7_counterexample :
    (handle wEmpty (postReq "" "u1")).1.status = 500 ∧
    (handle wEmpty (postReq "" "u1")).2.countP isFailedUpdate = 0 := by decide

/-- Claim C7 (amended): for every request whose conversionId does not
identify an existing job, the handler responds with failure, never
creates a job record, and marks the job failed whenever the id parsed
from the body is non-empty (truthy). -/
theorem C7_nonexistent_job (w : World) (cid u : String)
    (hjob : w.jobs cid = none) (hid : cid ≠ "") :
    (handle w (postReq cid u)).1 =
      { status := 500,
        body := RespBody.failure (stringOfError (JsError.errorObj "Conversion not found")) } ∧
    (∀ k, w.jobs k = none → finalJobs w.jobs (handle w (postReq cid u)).2 k = none) ∧
    (handle w (postReq cid u)).2.countP isFailedUpdate = 1 := by
  have h := tryPipeline_notFound w hjob
  rw [handle_error w u h hid]
  refine ⟨rfl, ?_, ?_⟩
  · intro k hk
    exact finalJobs_none _ hk
  · simp [List.countP_cons, isFailedUpdate_dbSelectJob, isFailedUpdate_failed]

/-- Witness for the amended C7 at a concrete missing id. -/
theorem C7_nonexistent_job_witness :
    (handle wEmpty (postReq "jobX" "u2")).1 =
      { status := 500,
        body := RespBody.failure (stringOfError (JsError.errorObj "Conversion not found")) } ∧
    (∀ k, wEmpty.jobs k = none →
      finalJobs wEmpty.jobs (handle wEmpty (postReq "jobX" "u2")).2 k = none) ∧
    (handle wEmpty (postReq "jobX" "u2")).2.countP isFailedUpdate = 1 :=
  C7_nonexistent_job wEmpty "jobX" "u2" rfl (by decide)

/-- The bucket state after one successful run: the three deterministic
paths hold the three payloads with their content types; everything else
is untouched. -/
lemma finalStorage_success (w : World) (cid svg : String)
    (gems : Option (List GemstoneSpec)) (m : MetalSpec) (files : CadFiles)
    (σ : String → Option StoredObject) :
    finalStorage σ (successEffects w cid svg gems m files) = fun p =>
      if p = objPath cid then some { content := files.obj_file, contentType := "model/obj" }
      else if p = stlPath cid then some { content := files.stl_file, contentType := "model/stl" }
      else if p = stepPath cid then some { content := files.step_file, contentType := "model/step" }
      else σ p := by
  funext p
  simp [finalStorage, successEffects, applyStorageEffect]

lemma filter_upload_success (w : World) (cid svg : String)
    (gems : Option (List GemstoneSpec)) (m : MetalSpec) (files : CadFiles) :
    (successEffects w cid svg gems m files).filter isUpload =
      [Effect.storageUpload (stepPath cid) files.step_file "model/step" true,
       Effect.storageUpload (stlPath cid) files.stl_file "model/stl" true,
       Effect.storageUpload (objPath cid) files.obj_file "model/obj" true] := by
  simp [successEffects, List.filter_cons, isUpload]

/-- The world as left behind by a first invocation of the handler: same
collaborators, job store updated by the run's effects. -/
def secondWorld (w : World) (cid u : String) : World :=
  { w with jobs := finalJobs w.jobs (handle w (postReq cid u)).2 }

/-- Claim C8: running the handler twice in succession for the same
conversion id against the same successful CAD response writes the three
payloads to the same three deterministic paths with content types
model/step, model/stl, model/obj and upsert, overwrites the prior objects
(the bucket state is unchanged by the second run: no duplicates, no
error), and leaves the job completed with the URLs populated. -/
theorem C8_rerun_idempotent (w : World) (cid u svg : String)
    (conv : ConversionJob) (m : MetalSpec) (r : CadHttpResponse) (files : CadFiles)
    (hjob : w.jobs cid = some conv)
    (hsvg : conv.vectorized_svg_url = some svg) (hne : svg ≠ "")
    (hm : w.metalRow cid = some m)
    (hcad : w.cad (buildCadReq svg cid (w.gemRows cid) m) = CadResult.response r)
    (hok : r.ok = true) (hjson : r.json = Except.ok files) :
    (handle (secondWorld w cid u) (postReq cid u)).1 =
      { status := 200, body := RespBody.success cid } ∧
    (handle (secondWorld w cid u) (postReq cid u)).2.filter isUpload =
      [Effect.storageUpload (stepPath cid) files.step_file "model/step" true,
       Effect.storageUpload (stlPath cid) files.stl_file "model/stl" true,
       Effect.storageUpload (objPath cid) files.obj_file "model/obj" true] ∧
    (handle (secondWorld w cid u) (postReq cid u)).2.filter isUpload =
      (handle w (postReq cid u)).2.filter isUpload ∧
    (∀ σ : String → Option StoredObject,
      finalStorage (finalStorage σ (handle w (postReq cid u)).2)
        (handle (secondWorld w cid u) (postReq cid u)).2 =
      finalStorage σ (handle w (postReq cid u)).2) ∧
    ∃ j, finalJobs (secondWorld w cid u).jobs
        (handle (secondWorld w cid u) (postReq cid u)).2 cid = some j ∧
      j.status = "completed" ∧
      j.cad_file_url = some (w.publicUrl (stepPath cid)) ∧
      j.stl_file_url = some (w.publicUrl (stlPath cid)) ∧
      j.obj_file_url = some (w.publicUrl (objPath cid)) := by
  have h1 := tryPipeline_success w hjob hsvg hne hm hcad hok hjson
  have hh1 := handle_ok w u h1
  have hjobs2 : (secondWorld w cid u).jobs cid =
      some (applyJobUpdate (completedUpdate (w.publicUrl (stepPath cid))
        (w.publicUrl (stlPath cid)) (w.publicUrl (objPath cid)) w.now)
        (applyJobUpdate generatingUpdate conv)) := by
    show finalJobs w.jobs (handle w (postReq cid u)).2 cid = _
    rw [hh1]
    exact finalJobs_success w svg (w.gemRows cid) m files hjob
  have h2 := tryPipeline_success (secondWorld w cid u) hjobs2 hsvg hne hm hcad hok hjson
  have hh2 := handle_ok (secondWorld w cid u) u h2
  have hSE : successEffects (secondWorld w cid u) cid svg
      ((secondWorld w cid u).gemRows cid) m files =
      successEffects w cid svg (w.gemRows cid) m files := rfl
  refine ⟨?_, ?_, ?_, ?_, ?_⟩
  · rw [hh2]
  · rw [hh2]
    exact filter_upload_success (secondWorld w cid u) cid svg
      ((secondWorld w cid u).gemRows cid) m files
  · rw [hh2, hh1]
    rw [hSE]
  · intro σ
    rw [hh2, hh1, hSE]
    show finalStorage (finalStorage σ (successEffects w cid svg (w.gemRows cid) m files))
        (successEffects w cid svg (w.gemRows cid) m files) = _
    rw [finalStorage_success, finalStorage_success]
    funext p
    by_cases h1p : p = objPath cid
    · simp [h1p]
    · by_cases h2p : p = stlPath cid
      · simp [h1p, h2p]
      · by_cases h3p : p = stepPath cid <;> simp [h1p, h2p, h3p]
  · refine ⟨applyJobUpdate (completedUpdate (w.publicUrl (stepPath cid))
      (w.publicUrl (stlPath cid)) (w.publicUrl (objPath cid)) w.now)
      (applyJobUpdate generatingUpdate
        (applyJobUpdate (completedUpdate (w.publicUrl (stepPath cid))
          (w.publicUrl (stlPath cid)) (w.publicUrl (objPath cid)) w.now)
          (applyJobUpdate generatingUpdate conv))), ?_, rfl, rfl, rfl, rfl⟩
    rw [hh2, hSE]
    exact finalJobs_success (secondWorld w cid u) svg (w.gemRows cid) m files hjobs2

/-- Witness for C8 at the wOk scenario: a second run after the first
completes again, re-writes the same three paths and leaves storage
unchanged. -/
theorem C8_rerun_idempotent_witness :
    (handle (secondWorld wOk "abc123" "u1") (postReq "abc123" "u1")).1 =
      { status := 200, body := RespBody.success "abc123" } ∧
    (handle (secondWorld wOk "abc123" "u1") (postReq "abc123" "u1")).2.filter isUpload =
      [Effect.storageUpload (stepPath "abc123") filesA.step_file "model/step" true,
       Effect.storageUpload (stlPath "abc123") filesA.stl_file "model/stl" true,
       Effect.storageUpload (objPath "abc123") filesA.obj_file "model/obj" true] ∧
    (handle (secondWorld wOk "abc123" "u1") (postReq "abc123" "u1")).2.filter isUpload =
      (handle wOk (postReq "abc123" "u1")).2.filter isUpload ∧
    (∀ σ : String → Option StoredObject,
      finalStorage (finalStorage σ (handle wOk (postReq "abc123" "u1")).2)
        (handle (secondWorld wOk "abc123" "u1") (postReq "abc123" "u1")).2 =
      finalStorage σ (handle wOk (postReq "abc123" "u1")).2) ∧
    ∃ j, finalJobs (secondWorld wOk "abc123" "u1").jobs
        (handle (secondWorld wOk "abc123" "u1") (postReq "abc123" "u1")).2 "abc123" = some j ∧
      j.status = "completed" ∧
      j.cad_file_url = some (wOk.publicUrl (stepPath "abc123")) ∧
      j.stl_file_url = some (wOk.publicUrl (stlPath "abc123")) ∧
      j.obj_file_url = some (wOk.publicUrl (objPath "abc123")) :=
  C8_rerun_idempotent wOk "abc123" "u1" "https://x/vec.svg" jobA metalA respA filesA
    (by decide) rfl (by decide) rfl rfl rfl rfl
